/-
Verification of the discipline-classifier core: a shallow embedding of
the taxonomy table (app/agents/models/models/discipline_models.py), the
classification parsing/validation pipeline
(app/agents/services/discipline_classifier_service.py), the section-type
inference of the paper parser
(app/agents/services/paper_parser_service.py), and the
serialization/reload pair (_classification_to_dict /
DisciplineClassifierCCA._load_classifier_output), together with proofs of
the specified properties.

Python floats are modelled as rationals (Rat); Python dicts keyed by
int/str are modelled as association lists with `List.lookup`; a JSON
field read with `dict.get(key, default)` is modelled as an `Option`
field read with `Option.getD`.
-/
import Mathlib

/-- Definition of an academic discipline (dataclass DisciplineDefinition). -/
structure DisciplineDefinition where
  id : Int
  name : String
  keywords : List String
  description : String
deriving DecidableEq

/-- The complete table of 23 disciplines (dict DISCIPLINES, insertion order). -/
def DISCIPLINES : List (Int × DisciplineDefinition) := [
  (1, { id := 1, name := "Computer Science",
            keywords := ["AI", "ML", "machine learning", "neural network", "deep learning",
              "algorithm", "software", "programming", "NLP", "computer vision",
              "data mining", "artificial intelligence", "computing", "database"],
            description := "Artificial intelligence, machine learning, algorithms, software engineering" }),
  (2, { id := 2, name := "Medicine",
            keywords := ["clinical", "diagnosis", "treatment", "patient", "medical",
              "disease", "therapy", "hospital", "physician", "healthcare",
              "surgical", "pharmaceutical", "pathology", "oncology"],
            description := "Clinical research, diagnostics, therapeutics, patient care" }),
  (3, { id := 3, name := "Chemistry",
            keywords := ["compound", "reaction", "synthesis", "molecule", "chemical",
              "catalyst", "polymer", "organic", "inorganic", "spectroscopy",
              "electrochemistry", "biochemistry", "analytical"],
            description := "Chemical compounds, reactions, synthesis, molecular analysis" }),
  (4, { id := 4, name := "Biology",
            keywords := ["gene", "cell", "evolution", "bioinformatics", "protein",
              "DNA", "RNA", "genome", "species", "organism", "molecular",
              "ecology", "genetics", "microbiology", "neuroscience"],
            description := "Genetics, cellular biology, evolution, bioinformatics" }),
  (5, { id := 5, name := "Materials Science",
            keywords := ["nanomaterial", "crystal", "alloy", "polymer", "semiconductor",
              "ceramic", "composite", "thin film", "surface", "nanoparticle",
              "graphene", "superconductor", "biomaterial"],
            description := "Nanomaterials, crystals, alloys, material properties" }),
  (6, { id := 6, name := "Physics",
            keywords := ["quantum", "particle", "thermodynamics", "mechanics", "optics",
              "electromagnetic", "relativity", "condensed matter", "nuclear",
              "astrophysics", "photon", "wave", "energy"],
            description := "Quantum mechanics, particle physics, thermodynamics" }),
  (7, { id := 7, name := "Geology",
            keywords := ["rock", "mineral", "tectonic", "sediment", "volcanic",
              "earthquake", "geochemistry", "stratigraphy", "paleontology",
              "hydrology", "geophysics", "geological"],
            description := "Rocks, minerals, tectonics, geological processes" }),
  (8, { id := 8, name := "Psychology",
            keywords := ["behavior", "cognitive", "psychological", "mental", "emotion",
              "perception", "memory", "personality", "therapy", "disorder",
              "consciousness", "developmental", "social psychology"],
            description := "Behavior, cognition, mental processes, psychological research" }),
  (9, { id := 9, name := "Art",
            keywords := ["visual art", "music", "aesthetic", "artistic", "painting",
              "sculpture", "performance", "design", "creative", "museum",
              "cultural heritage", "art history"],
            description := "Visual arts, music, aesthetics, artistic expression" }),
  (10, { id := 10, name := "History",
            keywords := ["historical", "era", "civilization", "ancient", "medieval",
              "modern history", "archaeology", "archive", "heritage",
              "historiography", "historical event", "dynasty"],
            description := "Historical events, eras, civilizations, historiography" }),
  (11, { id := 11, name := "Geography",
            keywords := ["spatial", "regional", "climate", "landscape", "urban",
              "GIS", "cartography", "territory", "migration", "population",
              "geospatial", "environmental geography"],
            description := "Spatial analysis, regional studies, climate, landscapes" }),
  (12, { id := 12, name := "Sociology",
            keywords := ["social", "culture", "institution", "community", "inequality",
              "class", "gender", "race", "ethnicity", "social structure",
              "sociological", "social change", "social behavior"],
            description := "Social structures, culture, institutions, social behavior" }),
  (13, { id := 13, name := "Business",
            keywords := ["management", "marketing", "finance", "entrepreneurship",
              "strategy", "organization", "corporate", "MBA", "leadership",
              "innovation", "business model", "supply chain"],
            description := "Management, marketing, finance, business strategy" }),
  (14, { id := 14, name := "Political Science",
            keywords := ["government", "policy", "political", "democracy", "election",
              "parliament", "legislation", "diplomacy", "international relations",
              "political party", "voting", "governance"],
            description := "Government, policy, political systems, international relations" }),
  (15, { id := 15, name := "Economics",
            keywords := ["market", "equilibrium", "financial", "monetary", "fiscal",
              "trade", "GDP", "inflation", "microeconomics", "macroeconomics",
              "econometric", "price", "demand", "supply"],
            description := "Markets, economic theory, financial systems, trade" }),
  (16, { id := 16, name := "Philosophy",
            keywords := ["ethics", "logic", "metaphysics", "epistemology", "ontology",
              "moral", "philosophical", "reasoning", "existential",
              "phenomenology", "aesthetics philosophy", "mind"],
            description := "Ethics, logic, metaphysics, epistemology, philosophical reasoning" }),
  (17, { id := 17, name := "Mathematics",
            keywords := ["theorem", "proof", "equation", "algebra", "calculus",
              "topology", "number theory", "statistics", "probability",
              "differential", "integral", "mathematical"],
            description := "Theorems, proofs, equations, mathematical analysis" }),
  (18, { id := 18, name := "Engineering",
            keywords := ["design", "system", "optimization", "mechanical", "electrical",
              "civil", "structural", "control", "robotics", "manufacturing",
              "engineering", "prototype", "simulation"],
            description := "Engineering design, systems, optimization, technical implementation" }),
  (19, { id := 19, name := "Environmental Science",
            keywords := ["ecology", "pollution", "climate change", "sustainability",
              "biodiversity", "conservation", "ecosystem", "carbon",
              "environmental impact", "renewable", "green"],
            description := "Ecology, pollution, climate change, sustainability" }),
  (20, { id := 20, name := "Agricultural and Food Sciences",
            keywords := ["crop", "food technology", "agriculture", "livestock", "soil",
              "irrigation", "harvest", "nutrition", "food safety",
              "agronomy", "horticulture", "aquaculture"],
            description := "Crops, food technology, agriculture, nutrition" }),
  (21, { id := 21, name := "Education",
            keywords := ["pedagogy", "curriculum", "learning", "teaching", "student",
              "classroom", "educational", "assessment", "literacy",
              "higher education", "school", "instruction"],
            description := "Pedagogy, curriculum, learning, teaching methods" }),
  (22, { id := 22, name := "Law",
            keywords := ["legal", "regulation", "case", "court", "statute",
              "contract", "liability", "criminal", "constitutional",
              "jurisdiction", "litigation", "judicial"],
            description := "Legal systems, regulations, case law, jurisprudence" }),
  (23, { id := 23, name := "Linguistics",
            keywords := ["language", "syntax", "semantics", "phonology", "morphology",
              "discourse", "linguistic", "grammar", "translation",
              "sociolinguistics", "pragmatics", "corpus"],
            description := "Language, syntax, semantics, linguistic analysis" })]

/-- Helper get_discipline_by_id: DISCIPLINES.get(discipline_id). -/
def get_discipline_by_id (discipline_id : Int) : Option DisciplineDefinition :=
  DISCIPLINES.lookup discipline_id

/-- A single discipline classification result (dataclass DisciplineResult). -/
structure DisciplineResult where
  discipline_id : Int
  name : String
  relevance_score : Rat
  evidence : String
deriving DecidableEq

/-- Complete discipline classification output (dataclass DisciplineClassification). -/
structure DisciplineClassification where
  disciplines : List DisciplineResult
  confidence_score : Rat
  classification_reasoning : String
  discipline_classification_id : String
deriving DecidableEq

/-- Python's two-argument max on numbers. -/
def pymax (a b : Rat) : Rat := if a ≤ b then b else a

/-- Python's two-argument min on numbers. -/
def pymin (a b : Rat) : Rat := if b ≤ a then b else a

/-- Clamping used throughout the service: min(1.0, max(0.0, x)). -/
def clamp01 (x : Rat) : Rat := pymin 1 (pymax 0 x)

/-- One entry of the oracle JSON's disciplines array. Every field is read
with dict.get and a default, so each is an Option here; the code never
reads the oracle's name field outside of disc_data.get("name", ""). -/
structure OracleEntry where
  id : Option Int
  name : Option String
  score : Option Rat
  evidence : Option String
deriving DecidableEq

/-- The decoded oracle JSON object. A missing disciplines key reads as []
via data.get("disciplines", []), so it is modelled as a plain list;
confidence and reasoning keep their Option because their defaults
(0.7 and "") matter. -/
structure OracleData where
  disciplines : List OracleEntry
  confidence : Option Rat
  reasoning : Option String
deriving DecidableEq

/-- Outcome of reading the classification oracle's output artifact:
the file may be absent, present but not valid JSON, or valid JSON. -/
inductive OracleArtifact where
  | absent
  | malformed
  | valid (data : OracleData)
deriving DecidableEq

/-- DisciplineClassifierService._fallback_classification. -/
def fallback_classification : DisciplineClassification :=
  { disciplines := [{ discipline_id := 1, name := "Computer Science",
                      relevance_score := mkRat 1 2,
                      evidence := "Fallback due to classification failure" }],
    confidence_score := mkRat 3 10,
    classification_reasoning := "Fallback classification due to processing error",
    discipline_classification_id := "" }

/-- The loop body of _parse_classification_result over one oracle entry:
resolve the id against DISCIPLINES; on success build a DisciplineResult
with the canonical name and the clamped score, otherwise drop the entry. -/
def parse_entry (e : OracleEntry) : Option DisciplineResult :=
  let disc_id := e.id.getD 0
  let score := e.score.getD 0
  let evidence := e.evidence.getD ""
  match get_discipline_by_id disc_id with
  | some disc_def =>
      some { discipline_id := disc_id, name := disc_def.name,
             relevance_score := clamp01 score, evidence := evidence }
  | none => none

/-- The default single entry substituted when no entry survives parsing. -/
def default_parse_entry : DisciplineResult :=
  { discipline_id := 1, name := "Computer Science",
    relevance_score := mkRat 1 2, evidence := "Default classification" }

/-- Stable descending insertion by relevance_score: the element being
inserted came earlier in the original list than everything already in the
accumulator, so on ties it goes first. -/
def insertByScore (x : DisciplineResult) : List DisciplineResult → List DisciplineResult
  | [] => [x]
  | y :: ys =>
      if y.relevance_score ≤ x.relevance_score then x :: y :: ys
      else y :: insertByScore x ys

/-- sorted(disciplines, key=lambda d: d.relevance_score, reverse=True):
a stable sort, descending by relevance_score. -/
def sortByScoreDesc : List DisciplineResult → List DisciplineResult
  | [] => []
  | x :: xs => insertByScore x (sortByScoreDesc xs)

/-- DisciplineClassifierService._parse_classification_result. -/
def parse_classification_result (artifact : OracleArtifact) : DisciplineClassification :=
  match artifact with
  | .absent => fallback_classification
  | .malformed => fallback_classification
  | .valid data =>
      let disciplines := data.disciplines.filterMap parse_entry
      let disciplines := if disciplines.isEmpty then [default_parse_entry] else disciplines
      let disciplines := (sortByScoreDesc disciplines).take 3
      { disciplines := disciplines,
        confidence_score := clamp01 (data.confidence.getD (mkRat 7 10)),
        classification_reasoning := data.reasoning.getD "",
        discipline_classification_id := "" }

/-- The loop body of _validate_disciplines over one already-parsed entry. -/
def validate_entry (d : DisciplineResult) : Option DisciplineResult :=
  match get_discipline_by_id d.discipline_id with
  | some disc_def =>
      some { discipline_id := d.discipline_id, name := disc_def.name,
             relevance_score := d.relevance_score, evidence := d.evidence }
  | none => none

/-- The single entry substituted when validation leaves nothing. -/
def fallback_validate_entry : DisciplineResult :=
  { discipline_id := 1, name := "Computer Science",
    relevance_score := mkRat 1 2, evidence := "Fallback classification" }

/-- DisciplineClassifierService._validate_disciplines. -/
def validate_disciplines (c : DisciplineClassification) : DisciplineClassification :=
  let validated := c.disciplines.filterMap validate_entry
  let validated := if validated.isEmpty then [fallback_validate_entry] else validated
  { disciplines := validated,
    confidence_score := c.confidence_score,
    classification_reasoning := c.classification_reasoning,
    discipline_classification_id := c.discipline_classification_id }

/-- The classifier pipeline on the oracle artifact: parsing followed by
the unconditional validation pass (classify_paper lines 121-125). -/
def classify_pipeline (artifact : OracleArtifact) : DisciplineClassification :=
  validate_disciplines (parse_classification_result artifact)

/-- Configuration for an expert reviewer role (dataclass ExpertRole). -/
structure ExpertRole where
  id : Int
  name : String
  focus : String
  model : String
  is_dynamic : Bool
deriving DecidableEq

/-- DISCIPLINE_TO_EXPERT_MAPPING: discipline name → role names in priority order. -/
def DISCIPLINE_TO_EXPERT_MAPPING : List (String × List String) := [
  ("Computer Science",
    ["Algorithm & Complexity Expert", "Experimental Design Expert",
     "Systems & Implementation Expert", "Related Work & Novelty Expert",
     "Clarity & Presentation Expert"]),
  ("Mathematics", ["Statistical Methodologist", "Formal Methods Expert"]),
  ("Physics", ["Theoretical Physicist", "Experimental Methodologist"]),
  ("Engineering", ["Systems Engineering Expert", "Technical Reviewer"]),
  ("Chemistry", ["Analytical Chemistry Expert", "Experimental Methodologist"]),
  ("Biology", ["Molecular Biology Expert", "Bioinformatics Specialist"]),
  ("Materials Science", ["Materials Characterization Expert", "Experimental Methodologist"]),
  ("Medicine", ["Clinical Research Expert", "Biostatistician"]),
  ("Environmental Science", ["Environmental Impact Assessor", "Ecological Methodologist"]),
  ("Agricultural and Food Sciences", ["Agricultural Research Expert", "Food Safety Specialist"]),
  ("Economics", ["Empirical Economics Scholar", "Causal Inference Expert"]),
  ("Business", ["Management Research Expert", "Quantitative Finance Specialist"]),
  ("Psychology", ["Experimental Psychology Expert", "Statistical Methodologist"]),
  ("Sociology", ["Qualitative Research Expert", "Social Statistics Specialist"]),
  ("Political Science", ["Policy Analysis Expert", "Comparative Politics Scholar"]),
  ("Education", ["Educational Research Methodologist", "Assessment Specialist"]),
  ("Philosophy", ["Philosophical Argumentation Expert", "Logic Specialist"]),
  ("History", ["Historical Research Methodologist", "Archival Expert"]),
  ("Art", ["Art Criticism Expert", "Aesthetic Theory Specialist"]),
  ("Linguistics", ["Linguistic Analysis Expert", "Corpus Linguistics Specialist"]),
  ("Law", ["Legal Research Expert", "Case Analysis Specialist"]),
  ("Geography", ["Spatial Analysis Expert", "GIS Methodologist"]),
  ("Geology", ["Geological Analysis Expert", "Field Methods Specialist"])]

/-- DEFAULT_EXPERT_ROLES: generic role names when no mapping exists. -/
def DEFAULT_EXPERT_ROLES : List String :=
  ["Methodology Expert", "Domain Expert", "Statistical Reviewer",
   "Literature Expert", "Integration Specialist"]

/-- DEFAULT_EXPERT_CONFIGS: dict position → generic ExpertRole, insertion order. -/
def DEFAULT_EXPERT_CONFIGS : List (Nat × ExpertRole) := [
  (1, { id := 1, name := "Methodology Expert",
          focus := "Research methodology, experimental design, validity of approach",
          model := "sonnet", is_dynamic := true }),
  (2, { id := 2, name := "Technical Expert",
          focus := "Technical soundness, implementation details, reproducibility",
          model := "sonnet", is_dynamic := true }),
  (3, { id := 3, name := "Domain Expert",
          focus := "Domain knowledge, literature integration, theoretical foundation",
          model := "sonnet", is_dynamic := true }),
  (4, { id := 4, name := "Related Work Expert",
          focus := "Literature coverage, novelty assessment, positioning",
          model := "haiku", is_dynamic := true }),
  (5, { id := 5, name := "Presentation Expert",
          focus := "Clarity, logical coherence, writing quality",
          model := "haiku", is_dynamic := true })]

/-- DISCIPLINE_EXPERT_FOCUS: per-discipline role-name → focus description. -/
def DISCIPLINE_EXPERT_FOCUS : List (String × List (String × String)) := [
  ("Computer Science", [
    ("Algorithm & Complexity Expert",
     "Algorithm correctness, computational complexity, theoretical analysis, proof validity"),
    ("Experimental Design Expert",
     "Benchmark selection, baseline fairness, ablation studies, hyperparameter sensitivity, statistical significance"),
    ("Systems & Implementation Expert",
     "Code quality, reproducibility, scalability, engineering practices, open-source availability"),
    ("Related Work & Novelty Expert",
     "Literature coverage, novelty claims, fair comparison with prior work, contribution clarity"),
    ("Clarity & Presentation Expert",
     "Writing quality, figure clarity, notation consistency, logical flow")]),
  ("Engineering", [
    ("Systems Engineering Expert", "System design, architecture validity, integration aspects"),
    ("Technical Reviewer", "Implementation feasibility, engineering constraints, practical applicability"),
    ("Domain Expert", "Domain-specific requirements, standards compliance"),
    ("Experimental Methodologist", "Testing methodology, validation procedures, measurement accuracy"),
    ("Integration Specialist", "Overall coherence, cross-system compatibility")])]

/-- get_expert_roles_for_disciplines: derive the expert-role roster from
the ranked discipline-name list (discipline_models.py lines 436-503). -/
def get_expert_roles_for_disciplines (discipline_names : List String)
    (num_experts : Nat := 5) : List ExpertRole :=
  match discipline_names with
  | [] => (DEFAULT_EXPERT_CONFIGS.map Prod.snd).take num_experts
  | primary :: _ =>
    let suggested := (DISCIPLINE_TO_EXPERT_MAPPING.lookup primary).getD []
    let focus_mapping := (DISCIPLINE_EXPERT_FOCUS.lookup primary).getD []
    if 5 ≤ suggested.length then
      let models := ["sonnet", "sonnet", "sonnet", "haiku", "haiku"]
      (suggested.take num_experts).enum.map (fun p =>
        let i : Nat := p.1
        let expert_name := p.2
        { id := (i : Int) + 1,
          name := expert_name,
          focus := (focus_mapping.lookup expert_name).getD
            (s!"Expert analysis from {expert_name} perspective for {primary}"),
          model := models[i]?.getD "haiku",
          is_dynamic := true })
    else
      let experts := DEFAULT_EXPERT_CONFIGS.map Prod.snd
      let experts := if 1 ≤ suggested.length then
          experts.set 2 { id := 3, name := suggested.headD "",
                          focus := s!"Domain expertise in {primary}",
                          model := "sonnet", is_dynamic := true }
        else experts
      let experts := if 2 ≤ suggested.length then
          experts.set 3 { id := 4, name := (suggested.get? 1).getD "",
                          focus := s!"Technical expertise related to {primary}",
                          model := "haiku", is_dynamic := true }
        else experts
      experts.take num_experts

/-- Whether the first char list is an initial segment of the second. -/
def leadsWith : List Char → List Char → Bool
  | [], _ => true
  | _ :: _, [] => false
  | a :: as, b :: bs => a == b && leadsWith as bs

/-- Whether the first char list occurs contiguously inside the second. -/
def occursIn (needle : List Char) : List Char → Bool
  | [] => needle.isEmpty
  | b :: bs => leadsWith needle (b :: bs) || occursIn needle bs

/-- A string lowered per character, as its character list; Python's
str.lower() on the ASCII section names used here. -/
def strLower (s : String) : List Char := s.toList.map Char.toLower

/-- Python's `needle in hay` on strings (the hay already lowered to a
character list): contiguous substring containment. -/
def pyIn (needle : String) (hay : List Char) : Bool := occursIn needle.toList hay

/-- The ordered type → keyword-list table of
PaperParserService._infer_section_type (dict literal, insertion order). -/
def type_mappings : List (String × List String) := [
  ("introduction", ["introduction", "intro", "background"]),
  ("methods", ["method", "methodology", "approach", "materials and methods"]),
  ("results", ["result", "finding", "experiment"]),
  ("discussion", ["discussion", "analysis"]),
  ("conclusion", ["conclusion", "summary", "concluding"]),
  ("abstract", ["abstract"]),
  ("references", ["reference", "bibliography", "citation"]),
  ("appendix", ["appendix", "supplementary"])]

/-- PaperParserService._infer_section_type: lowercase the section name,
return the first category with a keyword occurring in it, otherwise
`default_type or "content"` (the empty string is the only falsy str). -/
def infer_section_type (section_name : String) (default_type : String) : String :=
  let name_lower := strLower section_name
  match type_mappings.find? (fun p => p.2.any (fun kw => pyIn kw name_lower)) with
  | some p => p.1
  | none => if default_type = "" then "content" else default_type

/-- One entry of the disciplines array in the storage payload built by
_classification_to_dict (a plain JSON mapping with these four keys). -/
structure SerializedDiscipline where
  discipline_id : Int
  name : String
  relevance_score : Rat
  evidence : String
deriving DecidableEq

/-- The storage payload dictionary built by _classification_to_dict. -/
structure SerializedClassification where
  disciplines : List SerializedDiscipline
  confidence_score : Rat
  classification_reasoning : String
  discipline_classification_id : String
deriving DecidableEq

/-- DisciplineClassifierService._classification_to_dict. -/
def classification_to_dict (c : DisciplineClassification) : SerializedClassification :=
  { disciplines := c.disciplines.map (fun d =>
      { discipline_id := d.discipline_id, name := d.name,
        relevance_score := d.relevance_score, evidence := d.evidence }),
    confidence_score := c.confidence_score,
    classification_reasoning := c.classification_reasoning,
    discipline_classification_id := c.discipline_classification_id }

/-- The value produced by DisciplineClassification(**data) in
DisciplineClassifierCCA._load_classifier_output. DisciplineClassification
is a plain dataclass (review_models.py), so the constructor binds the
four keys of the payload as-is: the entries of the disciplines list stay
the raw payload mappings and are NOT coerced into DisciplineResult
instances. -/
structure LoadedClassification where
  disciplines : List SerializedDiscipline
  confidence_score : Rat
  classification_reasoning : String
  discipline_classification_id : String
deriving DecidableEq

/-- DisciplineClassifierCCA._load_classifier_output, applied to a decoded
payload: DisciplineClassification(**data) with dataclass semantics. -/
def load_classifier_output (p : SerializedClassification) : LoadedClassification :=
  { disciplines := p.disciplines,
    confidence_score := p.confidence_score,
    classification_reasoning := p.classification_reasoning,
    discipline_classification_id := p.discipline_classification_id }

lemma length_insertByScore (x : DisciplineResult) (l : List DisciplineResult) :
    (insertByScore x l).length = l.length + 1 := by
  induction l with
  | nil => rfl
  | cons y ys ih =>
      unfold insertByScore
      by_cases h : y.relevance_score ≤ x.relevance_score
      · simp [h]
      · simp [h, ih]

lemma length_sortByScoreDesc (l : List DisciplineResult) :
    (sortByScoreDesc l).length = l.length := by
  induction l with
  | nil => rfl
  | cons x xs ih => simp [sortByScoreDesc, length_insertByScore, ih]

lemma mem_insertByScore {a x : DisciplineResult} {l : List DisciplineResult} :
    a ∈ insertByScore x l ↔ a = x ∨ a ∈ l := by
  induction l with
  | nil => simp [insertByScore]
  | cons y ys ih =>
      unfold insertByScore
      by_cases h : y.relevance_score ≤ x.relevance_score
      · simp [h]
      · simp only [h, if_false, List.mem_cons, ih]
        tauto

lemma perm_insertByScore (x : DisciplineResult) (l : List DisciplineResult) :
    (insertByScore x l).Perm (x :: l) := by
  induction l with
  | nil => exact List.Perm.refl _
  | cons y ys ih =>
      unfold insertByScore
      by_cases h : y.relevance_score ≤ x.relevance_score
      · simp [h]
      · simp only [h, if_false]
        exact (ih.cons y).trans (List.Perm.swap x y ys)

lemma perm_sortByScoreDesc (l : List DisciplineResult) :
    (sortByScoreDesc l).Perm l := by
  induction l with
  | nil => exact List.Perm.refl _
  | cons x xs ih =>
      exact (perm_insertByScore x (sortByScoreDesc xs)).trans (ih.cons x)

lemma pairwise_insertByScore {x : DisciplineResult} {l : List DisciplineResult}
    (h : l.Pairwise (fun a b => b.relevance_score ≤ a.relevance_score)) :
    (insertByScore x l).Pairwise (fun a b => b.relevance_score ≤ a.relevance_score) := by
  induction l with
  | nil => simp [insertByScore]
  | cons y ys ih =>
      rcases List.pairwise_cons.mp h with ⟨hy, hys⟩
      unfold insertByScore
      by_cases hxy : y.relevance_score ≤ x.relevance_score
      · rw [if_pos hxy]
        refine List.pairwise_cons.mpr ⟨?_, h⟩
        intro z hz
        rcases List.mem_cons.mp hz with rfl | hz
        · exact hxy
        · exact le_trans (hy z hz) hxy
      · rw [if_neg hxy]
        refine List.pairwise_cons.mpr ⟨?_, ih hys⟩
        intro z hz
        rcases mem_insertByScore.mp hz with rfl | hz
        · exact le_of_lt (lt_of_not_le hxy)
        · exact hy z hz

lemma pairwise_sortByScoreDesc (l : List DisciplineResult) :
    (sortByScoreDesc l).Pairwise (fun a b => b.relevance_score ≤ a.relevance_score) := by
  induction l with
  | nil => simp [sortByScoreDesc]
  | cons x xs ih => exact pairwise_insertByScore ih

lemma filter_insertByScore (x : DisciplineResult) (l : List DisciplineResult) (s : Rat) :
    (insertByScore x l).filter (fun d => decide (d.relevance_score = s)) =
      if x.relevance_score = s
      then x :: l.filter (fun d => decide (d.relevance_score = s))
      else l.filter (fun d => decide (d.relevance_score = s)) := by
  induction l with
  | nil => by_cases hx : x.relevance_score = s <;> simp [insertByScore, hx]
  | cons y ys ih =>
      unfold insertByScore
      by_cases hxy : y.relevance_score ≤ x.relevance_score
      · rw [if_pos hxy]
        by_cases hx : x.relevance_score = s <;> simp [hx, List.filter_cons]
      · rw [if_neg hxy]
        have hygt : x.relevance_score < y.relevance_score := lt_of_not_le hxy
        by_cases hy : y.relevance_score = s
        · have hx : ¬ x.relevance_score = s := by
            intro hxs; exact absurd (hxs.trans hy.symm) (ne_of_lt hygt)
          simp [List.filter_cons, hy, ih, hx]
        · simp [List.filter_cons, hy, ih]

lemma filter_sortByScoreDesc (l : List DisciplineResult) (s : Rat) :
    (sortByScoreDesc l).filter (fun d => decide (d.relevance_score = s)) =
      l.filter (fun d => decide (d.relevance_score = s)) := by
  induction l with
  | nil => rfl
  | cons x xs ih =>
      unfold sortByScoreDesc
      rw [filter_insertByScore]
      by_cases hx : x.relevance_score = s <;> simp [hx, ih, List.filter_cons]

lemma parse_valid_disciplines_eq (data : OracleData) :
    (parse_classification_result (.valid data)).disciplines =
      (sortByScoreDesc
        (if (data.disciplines.filterMap parse_entry).isEmpty
         then [default_parse_entry]
         else data.disciplines.filterMap parse_entry)).take 3 := rfl

lemma validate_disciplines_eq (c : DisciplineClassification) :
    (validate_disciplines c).disciplines =
      if (c.disciplines.filterMap validate_entry).isEmpty
      then [fallback_validate_entry]
      else c.disciplines.filterMap validate_entry := rfl

lemma mem_parse_valid {data : OracleData} {d : DisciplineResult}
    (h : d ∈ (parse_classification_result (.valid data)).disciplines) :
    d = default_parse_entry ∨ ∃ e ∈ data.disciplines, parse_entry e = some d := by
  rw [parse_valid_disciplines_eq] at h
  have h1 := (perm_sortByScoreDesc _).subset (List.take_subset _ _ h)
  by_cases hps : (data.disciplines.filterMap parse_entry).isEmpty
  · rw [if_pos hps] at h1
    left
    simpa using h1
  · rw [if_neg hps] at h1
    right
    simpa using List.mem_filterMap.mp h1

lemma parse_disciplines_length_bounds (a : OracleArtifact) :
    1 ≤ (parse_classification_result a).disciplines.length ∧
      (parse_classification_result a).disciplines.length ≤ 3 := by
  cases a with
  | absent => exact ⟨by decide, by decide⟩
  | malformed => exact ⟨by decide, by decide⟩
  | valid data =>
      rw [parse_valid_disciplines_eq, List.length_take, length_sortByScoreDesc]
      have hbase : 1 ≤ (if (data.disciplines.filterMap parse_entry).isEmpty
          then [default_parse_entry]
          else data.disciplines.filterMap parse_entry).length := by
        by_cases hps : (data.disciplines.filterMap parse_entry).isEmpty
        · rw [if_pos hps]; exact le_refl 1
        · rw [if_neg hps]
          match hl : data.disciplines.filterMap parse_entry with
          | [] => rw [hl] at hps; exact absurd rfl hps
          | e :: es => simp
      exact ⟨le_min (by norm_num) hbase, min_le_left _ _⟩

/-- C1: for every oracle artifact, the classification returned by the
pipeline (parsing followed by the validation pass) has between 1 and 3
disciplines, including when the oracle fails or every entry is invalid. -/
theorem classify_pipeline_discipline_count_bounds (a : OracleArtifact) :
    1 ≤ (classify_pipeline a).disciplines.length ∧
      (classify_pipeline a).disciplines.length ≤ 3 := by
  have hp := parse_disciplines_length_bounds a
  unfold classify_pipeline
  rw [validate_disciplines_eq]
  by_cases hv : ((parse_classification_result a).disciplines.filterMap validate_entry).isEmpty
  · rw [if_pos hv]
    exact ⟨by decide, by decide⟩
  · rw [if_neg hv]
    constructor
    · match hl : (parse_classification_result a).disciplines.filterMap validate_entry with
      | [] => rw [hl] at hv; exact absurd rfl hv
      | _ :: _ => simp
    · exact le_trans (List.length_filterMap_le _ _) hp.2

/-- C4: an absent output file and a file that is not valid JSON both
yield the fixed fallback classification: one entry with discipline id 1
named Computer Science, relevance score 0.5, evidence text about the
classification failure, confidence 0.3 and the fixed fallback reasoning. -/
theorem parse_fallback_on_missing_or_invalid_artifact :
    parse_classification_result .absent = fallback_classification ∧
    parse_classification_result .malformed = fallback_classification ∧
    fallback_classification =
      { disciplines := [{ discipline_id := 1, name := "Computer Science",
                          relevance_score := mkRat 1 2,
                          evidence := "Fallback due to classification failure" }],
        confidence_score := mkRat 3 10,
        classification_reasoning := "Fallback classification due to processing error",
        discipline_classification_id := "" } :=
  ⟨rfl, rfl, rfl⟩

/-- C10: the validation pass only touches the disciplines list; the
confidence score, the reasoning text and the classification id of its
result are exactly those of its input, on every path. -/
theorem validate_disciplines_preserves_other_fields (c : DisciplineClassification) :
    (validate_disciplines c).confidence_score = c.confidence_score ∧
    (validate_disciplines c).classification_reasoning = c.classification_reasoning ∧
    (validate_disciplines c).discipline_classification_id = c.discipline_classification_id :=
  ⟨rfl, rfl, rfl⟩

/-- An oracle output with the name field of every entry removed; the
parser must behave identically on it, since ids are never corrected by
name lookup. -/
def eraseOracleNames (data : OracleData) : OracleData :=
  { data with disciplines := data.disciplines.map (fun e => { e with name := none }) }

/-- The unresolvable-id example of the spec: oracle ids [99, 2] with
scores [0.8, 0.5], both carrying non-canonical names. -/
def c2_example_data : OracleData :=
  { disciplines := [
      { id := some 99, name := some "Quantum Basket Weaving",
        score := some (mkRat 8 10), evidence := some "e99" },
      { id := some 2, name := some "Med Sci",
        score := some (mkRat 1 2), evidence := some "e2" }],
    confidence := some (mkRat 9 10), reasoning := some "r" }

lemma parse_entry_resolves {e : OracleEntry} {d : DisciplineResult}
    (h : parse_entry e = some d) :
    ∃ dd, get_discipline_by_id d.discipline_id = some dd ∧ d.name = dd.name := by
  rcases hdd : get_discipline_by_id (e.id.getD 0) with _ | dd
  · simp [parse_entry, hdd] at h
  · simp [parse_entry, hdd] at h
    exact ⟨dd, by rw [← h]; exact hdd, by rw [← h]⟩

/-- C2: oracle entries whose id does not resolve against the taxonomy are
dropped (never corrected from the oracle name, on which the parse result
does not depend at all), and every surviving entry carries the canonical
taxonomy name; ids [99, 2] yield only id 2 with canonical name Medicine. -/
theorem parse_drops_unresolvable_and_canonicalizes :
    (∀ (data : OracleData) (d : DisciplineResult),
        d ∈ (parse_classification_result (.valid data)).disciplines →
        ∃ dd, get_discipline_by_id d.discipline_id = some dd ∧ d.name = dd.name)
    ∧ (∀ data : OracleData,
        parse_classification_result (.valid (eraseOracleNames data)) =
          parse_classification_result (.valid data))
    ∧ parse_classification_result (.valid c2_example_data) =
        { disciplines := [{ discipline_id := 2, name := "Medicine",
                            relevance_score := mkRat 1 2, evidence := "e2" }],
          confidence_score := mkRat 9 10,
          classification_reasoning := "r",
          discipline_classification_id := "" } := by
  refine ⟨?_, ?_, ?_⟩
  · intro data d h
    rcases mem_parse_valid h with rfl | ⟨e, _, he⟩
    · exact ⟨(get_discipline_by_id default_parse_entry.discipline_id).get (by decide),
        by simp, by decide⟩
    · exact parse_entry_resolves he
  · intro data
    have hfm : ((data.disciplines.map (fun e => { e with name := none })).filterMap
        parse_entry) = data.disciplines.filterMap parse_entry := by
      rw [List.filterMap_map]; rfl
    unfold parse_classification_result eraseOracleNames
    simp only [hfm]
  · decide

/-- Witness for C2: the canonical-name clause instantiated at the
concrete [99, 2] oracle output and its surviving Medicine entry. -/
theorem parse_drops_unresolvable_and_canonicalizes_witness :
    ∃ dd, get_discipline_by_id 2 = some dd ∧ "Medicine" = dd.name := by
  have hmem : (⟨2, "Medicine", mkRat 1 2, "e2"⟩ : DisciplineResult) ∈
      (parse_classification_result (.valid c2_example_data)).disciplines := by
    rw [parse_drops_unresolvable_and_canonicalizes.2.2]
    exact List.mem_singleton.mpr rfl
  exact parse_drops_unresolvable_and_canonicalizes.1 c2_example_data _ hmem

/-- The sorting example of the spec: oracle ids [3, 1, 17] with scores
[0.4, 0.9, 0.6]. -/
def c3_example_data : OracleData :=
  { disciplines := [
      { id := some 3, name := some "Chem", score := some (mkRat 4 10), evidence := none },
      { id := some 1, name := some "CS", score := some (mkRat 9 10), evidence := none },
      { id := some 17, name := some "Math", score := some (mkRat 6 10), evidence := none }],
    confidence := some (mkRat 8 10), reasoning := some "r3" }

/-- C3: the parsed disciplines list is non-increasing by relevance score
and has at most 3 entries; the sort used is a stable rearrangement
(a permutation in which entries of any fixed score keep their original
oracle order); ids [3, 1, 17] with scores [0.4, 0.9, 0.6] come out as
[1 (0.9), 17 (0.6), 3 (0.4)]. -/
theorem parse_sorted_truncated_stable :
    (∀ a : OracleArtifact,
        (parse_classification_result a).disciplines.Pairwise
          (fun x y => y.relevance_score ≤ x.relevance_score))
    ∧ (∀ a : OracleArtifact, (parse_classification_result a).disciplines.length ≤ 3)
    ∧ (∀ l : List DisciplineResult, (sortByScoreDesc l).Perm l)
    ∧ (∀ (l : List DisciplineResult) (s : Rat),
        (sortByScoreDesc l).filter (fun d => decide (d.relevance_score = s)) =
          l.filter (fun d => decide (d.relevance_score = s)))
    ∧ (parse_classification_result (.valid c3_example_data)).disciplines =
        [{ discipline_id := 1, name := "Computer Science",
           relevance_score := mkRat 9 10, evidence := "" },
         { discipline_id := 17, name := "Mathematics",
           relevance_score := mkRat 6 10, evidence := "" },
         { discipline_id := 3, name := "Chemistry",
           relevance_score := mkRat 4 10, evidence := "" }] := by
  refine ⟨?_, fun a => (parse_disciplines_length_bounds a).2,
    perm_sortByScoreDesc, filter_sortByScoreDesc, by decide⟩
  intro a
  cases a with
  | absent => simp [parse_classification_result, fallback_classification]
  | malformed => simp [parse_classification_result, fallback_classification]
  | valid data =>
      rw [parse_valid_disciplines_eq]
      exact (pairwise_sortByScoreDesc _).sublist (List.take_sublist _ _)

lemma clamp01_nonneg (x : Rat) : 0 ≤ clamp01 x := by
  unfold clamp01 pymin pymax
  by_cases hx : 0 ≤ x
  · rw [if_pos hx]
    by_cases hx1 : x ≤ 1
    · rw [if_pos hx1]; exact hx
    · rw [if_neg hx1]; norm_num
  · rw [if_neg hx, if_pos (by norm_num : (0:Rat) ≤ 1)]

lemma clamp01_le_one (x : Rat) : clamp01 x ≤ 1 := by
  unfold clamp01 pymin pymax
  by_cases hx : 0 ≤ x
  · rw [if_pos hx]
    by_cases hx1 : x ≤ 1
    · rw [if_pos hx1]; exact hx1
    · rw [if_neg hx1]
  · rw [if_neg hx, if_pos (by norm_num : (0:Rat) ≤ 1)]
    norm_num

lemma parse_entry_score {e : OracleEntry} {d : DisciplineResult}
    (h : parse_entry e = some d) :
    d.relevance_score = clamp01 (e.score.getD 0) := by
  rcases hdd : get_discipline_by_id (e.id.getD 0) with _ | dd
  · simp [parse_entry, hdd] at h
  · simp [parse_entry, hdd] at h
    rw [← h]

/-- The clamping example of the spec: oracle scores 1.7 and -0.2, with
no confidence field. -/
def c5_example_data : OracleData :=
  { disciplines := [
      { id := some 1, name := none, score := some (mkRat 17 10), evidence := none },
      { id := some 2, name := none, score := some (mkRat (-2) 10), evidence := none }],
    confidence := none, reasoning := none }

/-- C5: every parsed relevance score lies in [0, 1] (1.7 clamps to 1 and
-0.2 clamps to 0), and the confidence score is the oracle confidence
clamped to [0, 1], equal to 0.7 when that field is absent. -/
theorem parse_clamps_scores_and_confidence :
    (∀ (a : OracleArtifact) (d : DisciplineResult),
        d ∈ (parse_classification_result a).disciplines →
        0 ≤ d.relevance_score ∧ d.relevance_score ≤ 1)
    ∧ (∀ a : OracleArtifact,
        0 ≤ (parse_classification_result a).confidence_score ∧
          (parse_classification_result a).confidence_score ≤ 1)
    ∧ (∀ data : OracleData,
        (parse_classification_result (.valid data)).confidence_score =
          clamp01 (data.confidence.getD (mkRat 7 10)))
    ∧ (∀ data : OracleData, data.confidence = none →
        (parse_classification_result (.valid data)).confidence_score = mkRat 7 10)
    ∧ clamp01 (mkRat 17 10) = 1 ∧ clamp01 (mkRat (-2) 10) = 0
    ∧ parse_classification_result (.valid c5_example_data) =
        { disciplines := [
            { discipline_id := 1, name := "Computer Science",
              relevance_score := 1, evidence := "" },
            { discipline_id := 2, name := "Medicine",
              relevance_score := 0, evidence := "" }],
          confidence_score := mkRat 7 10,
          classification_reasoning := "",
          discipline_classification_id := "" } := by
  refine ⟨?_, ?_, fun data => rfl, ?_, by decide, by decide, by decide⟩
  · intro a d h
    cases a with
    | absent =>
        simp [parse_classification_result, fallback_classification] at h
        subst h; exact ⟨by decide, by decide⟩
    | malformed =>
        simp [parse_classification_result, fallback_classification] at h
        subst h; exact ⟨by decide, by decide⟩
    | valid data =>
        rcases mem_parse_valid h with rfl | ⟨e, _, he⟩
        · exact ⟨by decide, by decide⟩
        · rw [parse_entry_score he]
          exact ⟨clamp01_nonneg _, clamp01_le_one _⟩
  · intro a
    cases a with
    | absent => exact ⟨by decide, by decide⟩
    | malformed => exact ⟨by decide, by decide⟩
    | valid data => exact ⟨clamp01_nonneg _, clamp01_le_one _⟩
  · intro data h
    rw [show (parse_classification_result (.valid data)).confidence_score =
      clamp01 (data.confidence.getD (mkRat 7 10)) from rfl, h]
    decide

/-- Witness for C5: the score-bounds clause at the concrete clamping
example and the default-confidence clause at the same input. -/
theorem parse_clamps_scores_and_confidence_witness :
    (0 ≤ (1 : Rat) ∧ (1 : Rat) ≤ 1) ∧
    (parse_classification_result (.valid c5_example_data)).confidence_score = mkRat 7 10 := by
  constructor
  · have hmem : (⟨1, "Computer Science", 1, ""⟩ : DisciplineResult) ∈
        (parse_classification_result (.valid c5_example_data)).disciplines := by
      rw [parse_clamps_scores_and_confidence.2.2.2.2.2.2]
      exact List.mem_cons_self _ _
    exact parse_clamps_scores_and_confidence.1 (.valid c5_example_data) _ hmem
  · exact parse_clamps_scores_and_confidence.2.2.2.1 c5_example_data rfl

/-- C6: a primary discipline with at least 5 mapped role names gets a
fully rebuilt roster: role i (0-based) of the first 5 mapped names, with
sequential 1-based id, the mapped focus or the generated default focus,
the fixed sonnet/sonnet/sonnet/haiku/haiku tier pattern (haiku from
position 5 on), and is_dynamic true; Computer Science with target 5
yields exactly its 5 curated roles in listed order. -/
theorem expert_roles_rich_discipline_full_replacement :
    (∀ (primary : String) (rest : List String) (i : Nat) (role_name : String),
        5 ≤ ((DISCIPLINE_TO_EXPERT_MAPPING.lookup primary).getD []).length →
        ((DISCIPLINE_TO_EXPERT_MAPPING.lookup primary).getD [])[i]? = some role_name →
        i < 5 →
        (get_expert_roles_for_disciplines (primary :: rest) 5).length = 5 ∧
        (get_expert_roles_for_disciplines (primary :: rest) 5)[i]? = some
          { id := (i : Int) + 1, name := role_name,
            focus := (((DISCIPLINE_EXPERT_FOCUS.lookup primary).getD []).lookup
                role_name).getD
              (s!"Expert analysis from {role_name} perspective for {primary}"),
            model := (["sonnet", "sonnet", "sonnet", "haiku", "haiku"][i]?).getD "haiku",
            is_dynamic := true })
    ∧ get_expert_roles_for_disciplines ["Computer Science"] 5 =
        [{ id := 1, name := "Algorithm & Complexity Expert",
           focus := "Algorithm correctness, computational complexity, theoretical analysis, proof validity",
           model := "sonnet", is_dynamic := true },
         { id := 2, name := "Experimental Design Expert",
           focus := "Benchmark selection, baseline fairness, ablation studies, hyperparameter sensitivity, statistical significance",
           model := "sonnet", is_dynamic := true },
         { id := 3, name := "Systems & Implementation Expert",
           focus := "Code quality, reproducibility, scalability, engineering practices, open-source availability",
           model := "sonnet", is_dynamic := true },
         { id := 4, name := "Related Work & Novelty Expert",
           focus := "Literature coverage, novelty claims, fair comparison with prior work, contribution clarity",
           model := "haiku", is_dynamic := true },
         { id := 5, name := "Clarity & Presentation Expert",
           focus := "Writing quality, figure clarity, notation consistency, logical flow",
           model := "haiku", is_dynamic := true }] := by
  constructor
  · intro primary rest i role_name h5 hget hlt
    simp only [get_expert_roles_for_disciplines]
    rw [if_pos h5]
    constructor
    · rw [List.length_map, List.enum_length, List.length_take]
      omega
    · rw [List.getElem?_map, List.getElem?_enum, List.getElem?_take_of_lt hlt, hget]
      rfl
  · decide

/-- Witness for C6: the general clause at Computer Science, position 0. -/
theorem expert_roles_rich_discipline_full_replacement_witness :
    (get_expert_roles_for_disciplines ["Computer Science"] 5).length = 5 ∧
    (get_expert_roles_for_disciplines ["Computer Science"] 5)[0]? = some
      { id := 1, name := "Algorithm & Complexity Expert",
        focus := "Algorithm correctness, computational complexity, theoretical analysis, proof validity",
        model := "sonnet", is_dynamic := true } := by
  have h := expert_roles_rich_discipline_full_replacement.1 "Computer Science" [] 0
    "Algorithm & Complexity Expert" (by decide) (by decide) (by decide)
  exact ⟨h.1, h.2.trans (by decide)⟩

/-- C7: a primary discipline with fewer than 5 mapped roles (all shapes:
0 to 4 mapped names) gets the global default 5-role roster with only
index 2 (position 3) overwritten by the first mapped role and index 3
(position 4) by the second, when they exist; the overwritten entries are
dynamic with a focus naming the primary discipline, the other positions
keep the generic defaults, and the roster is truncated to the target 5;
Mathematics with its 2 mapped roles is the concrete instance. -/
theorem expert_roles_sparse_discipline_partial_patch :
    (∀ (primary : String) (rest : List String),
        (DISCIPLINE_TO_EXPERT_MAPPING.lookup primary).getD [] = [] →
        get_expert_roles_for_disciplines (primary :: rest) 5 =
          DEFAULT_EXPERT_CONFIGS.map Prod.snd)
    ∧ (∀ (primary : String) (rest : List String) (a : String),
        (DISCIPLINE_TO_EXPERT_MAPPING.lookup primary).getD [] = [a] →
        get_expert_roles_for_disciplines (primary :: rest) 5 =
          (DEFAULT_EXPERT_CONFIGS.map Prod.snd).set 2
            { id := 3, name := a, focus := s!"Domain expertise in {primary}",
              model := "sonnet", is_dynamic := true })
    ∧ (∀ (primary : String) (rest : List String) (a b : String),
        (DISCIPLINE_TO_EXPERT_MAPPING.lookup primary).getD [] = [a, b] →
        get_expert_roles_for_disciplines (primary :: rest) 5 =
          ((DEFAULT_EXPERT_CONFIGS.map Prod.snd).set 2
            { id := 3, name := a, focus := s!"Domain expertise in {primary}",
              model := "sonnet", is_dynamic := true }).set 3
            { id := 4, name := b, focus := s!"Technical expertise related to {primary}",
              model := "haiku", is_dynamic := true })
    ∧ (∀ (primary : String) (rest : List String) (a b c : String),
        (DISCIPLINE_TO_EXPERT_MAPPING.lookup primary).getD [] = [a, b, c] →
        get_expert_roles_for_disciplines (primary :: rest) 5 =
          ((DEFAULT_EXPERT_CONFIGS.map Prod.snd).set 2
            { id := 3, name := a, focus := s!"Domain expertise in {primary}",
              model := "sonnet", is_dynamic := true }).set 3
            { id := 4, name := b, focus := s!"Technical expertise related to {primary}",
              model := "haiku", is_dynamic := true })
    ∧ (∀ (primary : String) (rest : List String) (a b c d : String),
        (DISCIPLINE_TO_EXPERT_MAPPING.lookup primary).getD [] = [a, b, c, d] →
        get_expert_roles_for_disciplines (primary :: rest) 5 =
          ((DEFAULT_EXPERT_CONFIGS.map Prod.snd).set 2
            { id := 3, name := a, focus := s!"Domain expertise in {primary}",
              model := "sonnet", is_dynamic := true }).set 3
            { id := 4, name := b, focus := s!"Technical expertise related to {primary}",
              model := "haiku", is_dynamic := true })
    ∧ get_expert_roles_for_disciplines ["Mathematics"] 5 =
        [{ id := 1, name := "Methodology Expert",
           focus := "Research methodology, experimental design, validity of approach",
           model := "sonnet", is_dynamic := true },
         { id := 2, name := "Technical Expert",
           focus := "Technical soundness, implementation details, reproducibility",
           model := "sonnet", is_dynamic := true },
         { id := 3, name := "Statistical Methodologist",
           focus := "Domain expertise in Mathematics",
           model := "sonnet", is_dynamic := true },
         { id := 4, name := "Formal Methods Expert",
           focus := "Technical expertise related to Mathematics",
           model := "haiku", is_dynamic := true },
         { id := 5, name := "Presentation Expert",
           focus := "Clarity, logical coherence, writing quality",
           model := "haiku", is_dynamic := true }] := by
  refine ⟨?_, ?_, ?_, ?_, ?_, by decide⟩
  · intro primary rest h
    simp only [get_expert_roles_for_disciplines, h]
    rfl
  · intro primary rest a h
    simp only [get_expert_roles_for_disciplines, h]
    rfl
  · intro primary rest a b h
    simp only [get_expert_roles_for_disciplines, h]
    rfl
  · intro primary rest a b c h
    simp only [get_expert_roles_for_disciplines, h]
    rfl
  · intro primary rest a b c d h
    simp only [get_expert_roles_for_disciplines, h]
    rfl

/-- Witness for C7: the two-mapped-roles clause at Mathematics. -/
theorem expert_roles_sparse_discipline_partial_patch_witness :
    get_expert_roles_for_disciplines ["Mathematics"] 5 =
      ((DEFAULT_EXPERT_CONFIGS.map Prod.snd).set 2
        { id := 3, name := "Statistical Methodologist",
          focus := "Domain expertise in Mathematics",
          model := "sonnet", is_dynamic := true }).set 3
        { id := 4, name := "Formal Methods Expert",
          focus := "Technical expertise related to Mathematics",
          model := "haiku", is_dynamic := true } := by
  have h := expert_roles_sparse_discipline_partial_patch.2.2.1 "Mathematics" []
    "Statistical Methodologist" "Formal Methods Expert" (by decide)
  exact h.trans (by decide)

/-- Counterexample for C8 as stated: for the section name Zebra no
keyword of the table matches, yet the inferred type is the caller-supplied
default_type (here custom_type), not "content"; the code returns
`default_type or "content"`, so "content" appears only when the supplied
default is empty. -/
theorem infer_section_type_no_match_keeps_default :
    infer_section_type "Zebra" "custom_type" = "custom_type" ∧
    infer_section_type "Zebra" "custom_type" ≠ "content" ∧
    (type_mappings.all fun p => p.2.all fun kw => !(pyIn kw (strLower "Zebra"))) = true :=
  ⟨by decide, by decide, by decide⟩

/-- C8 as amended: the inferred type is decided by case-insensitive
substring matching against the ordered type → keyword table, first
matching category wins; when no keyword matches, the type falls back to
the caller-supplied default type, and becomes "content" only when that
default is the empty string. -/
theorem infer_section_type_first_match_or_default :
    (∀ (section_name default_type : String),
        (type_mappings.all fun p =>
          p.2.all fun kw => !(pyIn kw (strLower section_name))) = true →
        infer_section_type section_name default_type =
          if default_type = "" then "content" else default_type)
    ∧ (∀ (section_name default_type ty : String) (kws : List String)
        (pre post : List (String × List String)),
        type_mappings = pre ++ (ty, kws) :: post →
        (pre.all fun p => p.2.all fun kw => !(pyIn kw (strLower section_name))) = true →
        (kws.any fun kw => pyIn kw (strLower section_name)) = true →
        infer_section_type section_name default_type = ty) := by
  constructor
  · intro section_name default_type h
    simp only [infer_section_type]
    have hnone : type_mappings.find?
        (fun p => p.2.any (fun kw => pyIn kw (strLower section_name))) = none := by
      apply List.find?_eq_none.mpr
      intro p hp hpos
      obtain ⟨kw, hkw, hpy⟩ := List.any_eq_true.mp hpos
      have hall := List.all_eq_true.mp (List.all_eq_true.mp h p hp) kw hkw
      simp [hpy] at hall
    rw [hnone]
  · intro section_name default_type ty kws pre post heq hpre hany
    simp only [infer_section_type]
    rw [heq, List.find?_append]
    have h1 : pre.find?
        (fun p => p.2.any (fun kw => pyIn kw (strLower section_name))) = none := by
      apply List.find?_eq_none.mpr
      intro p hp hpos
      obtain ⟨kw, hkw, hpy⟩ := List.any_eq_true.mp hpos
      have hall := List.all_eq_true.mp (List.all_eq_true.mp hpre p hp) kw hkw
      simp [hpy] at hall
    have h2 : ((ty, kws) :: post).find?
        (fun p => p.2.any (fun kw => pyIn kw (strLower section_name))) = some (ty, kws) :=
      List.find?_cons_of_pos _ (by simpa using hany)
    rw [h1, h2]
    rfl

/-- Witness for C8 as amended: first-match at the name Introduction with
a non-empty default (pre-table empty), and the empty-default fallback at
the unmatched name Zebra. -/
theorem infer_section_type_first_match_or_default_witness :
    infer_section_type "Introduction" "custom_type" = "introduction" ∧
    infer_section_type "Zebra" "" = "content" := by
  constructor
  · exact infer_section_type_first_match_or_default.2 "Introduction" "custom_type"
      "introduction" ["introduction", "intro", "background"] []
      [("methods", ["method", "methodology", "approach", "materials and methods"]),
       ("results", ["result", "finding", "experiment"]),
       ("discussion", ["discussion", "analysis"]),
       ("conclusion", ["conclusion", "summary", "concluding"]),
       ("abstract", ["abstract"]),
       ("references", ["reference", "bibliography", "citation"]),
       ("appendix", ["appendix", "supplementary"])]
      (by decide) (by decide) (by decide)
  · exact (infer_section_type_first_match_or_default.1 "Zebra" "" (by decide)).trans
      (by decide)

/-- C9 evaluated at a concrete input (the fallback classification): the
serialize/reload pair preserves every stored field value, but the reload
side, DisciplineClassification(**data) on the plain dataclass of
review_models.py, binds the payload keys as-is, so its disciplines
entries remain the raw payload mappings (LoadedClassification here)
rather than DisciplineResult instances: the reconstruction is not
field-for-field equal to the original in the code, where the dataclass
equality check compares classes and the save side even calls the
non-existent model_dump(). -/
theorem load_classifier_output_keeps_payload_values :
    load_classifier_output (classification_to_dict fallback_classification) =
      { disciplines := [{ discipline_id := 1, name := "Computer Science",
                          relevance_score := mkRat 1 2,
                          evidence := "Fallback due to classification failure" }],
        confidence_score := mkRat 3 10,
        classification_reasoning := "Fallback classification due to processing error",
        discipline_classification_id := "" } := by decide
